import Mathlib

/-!
Shallow embedding of `src/tgigbotspn.py`, a single-session Telegram demo bot:
a five-step configuration wizard driven by a global state record, plus a
dry-run counting loop.  Pure Python functions become Lean functions; the
handlers become functions `BotState → BotState × Option Reply`; the async
counting loop becomes an explicit step function iterated over ℕ.
-/

/-! ### Python string primitives

Models of the Python `str` operations the source uses.  `\s` / `str.isspace`
is modelled by the exact character list CPython uses; the Unicode classes
behind `\w` and `str.isdigit` are modelled over their ASCII core (every
input appearing in the spec and the claims is ASCII on the relevant
characters). -/

/-- Characters matched by Python `str.isspace` and the regex class `\s`. -/
def pyIsSpace (c : Char) : Bool :=
  c ∈ [' ', '\t', '\n', '\x0b', '\x0c', '\r',
       '\x1c', '\x1d', '\x1e', '\x1f', '\x85', '\xa0',
       ' ', ' ', ' ', ' ', ' ', ' ', ' ',
       ' ', ' ', ' ', ' ', ' ',
       ' ', ' ', ' ', ' ', '　']

/-- Characters matched by the regex class `\w` (ASCII core: letters, digits,
underscore). -/
def pyIsWord (c : Char) : Bool :=
  c.isAlphanum || c = '_'

/-- Python `str.strip()` on a character list: drop whitespace from both ends. -/
def pyStrip (l : List Char) : List Char :=
  ((l.dropWhile pyIsSpace).reverse.dropWhile pyIsSpace).reverse

/-- Python `str.strip()` on a `String`. -/
def pyStripStr (s : String) : String :=
  ⟨pyStrip s.data⟩

/-- Python `str.isdigit` (ASCII core): non-empty and all decimal digits. -/
def pyIsDigit (s : String) : Bool :=
  s.data ≠ [] && s.data.all Char.isDigit

/-- Python `int(text)` for a string of decimal digits. -/
def strToNat (s : String) : Nat :=
  s.data.foldl (fun a c => a * 10 + (c.toNat - '0'.toNat)) 0

/-- Python `str.lower()` (ASCII core): lower-case character by character. -/
def pyLower (s : String) : String :=
  ⟨s.data.map Char.toLower⟩

/-! ### `split_messages` (src/tgigbotspn.py lines 76-86)

```python
raw = raw.replace("﹠", "&").replace("＆", "&").replace("⅋", "&")
parts = re.split(r"\s*(?:&|\band\b)\s*", raw, flags=re.I)
return [p.strip() for p in parts if p.strip()]
```

The regex split is modelled by a left-to-right scanner.  At a position the
pattern matches iff: after greedily consuming a whitespace run, the next
character is `&`, or the next three characters spell `and` case-insensitively
with a word boundary on each side (backing off the greedy `\s*` can never
help, since a whitespace character can start neither alternative). -/

/-- Replacement of the three ampersand look-alikes (`replace` of single
characters, hence a character map). -/
def normalizeAmp (l : List Char) : List Char :=
  l.map (fun c => if c = '﹠' ∨ c = '＆' ∨ c = '⅋' then '&' else c)

/-- Length of the maximal whitespace prefix (greedy `\s*`). -/
def wsCount : List Char → Nat
  | [] => 0
  | c :: cs => if pyIsSpace c then wsCount cs + 1 else 0

/-- Does the list start with `and`, case-insensitively (flag `re.I`)? -/
def startsWithAnd : List Char → Bool
  | a :: n :: d :: _ => a.toLower = 'a' && n.toLower = 'n' && d.toLower = 'd'
  | _ => false

/-- Word boundary `\b` before a word character: start of string or a
non-word character. -/
def boundaryBefore : Option Char → Bool
  | none => true
  | some c => !pyIsWord c

/-- Word boundary `\b` after a word character: end of string or a non-word
character. -/
def boundaryAfter : List Char → Bool
  | [] => true
  | c :: _ => !pyIsWord c

/-- Attempt to match `\s*(?:&|\band\b)\s*` at the current position, given the
character preceding it (`none` at the start of the string).  Returns the
number of characters the match consumes. -/
def tryMatch (prev : Option Char) (l : List Char) : Option Nat :=
  let k := wsCount l
  let l2 := l.drop k
  let prevQ : Option Char := if k = 0 then prev else l.get? (k - 1)
  match l2 with
  | [] => none
  | c :: rest =>
    if c = '&' then some (k + 1 + wsCount rest)
    else if startsWithAnd l2 && boundaryBefore prevQ && boundaryAfter (l2.drop 3) then
      some (k + 3 + wsCount (l2.drop 3))
    else none

/-- Scanner for `re.split`: walk the string; at each position try the
delimiter pattern; on a match emit the accumulated piece and continue after
the match, otherwise move the character into the current piece.  `fuel`
bounds the recursion; any fuel of at least `l.length + 1` is enough since a
match always consumes at least one character. -/
def splitScanF : Nat → Option Char → List Char → List Char → List (List Char)
  | 0, _, cur, l => [cur ++ l]
  | fuel + 1, prev, cur, l =>
    match l with
    | [] => [cur]
    | c :: rest =>
      match tryMatch prev l with
      | some n => cur :: splitScanF fuel (l.get? (n - 1)) [] (l.drop n)
      | none => splitScanF fuel (some c) (cur ++ [c]) rest

/-- Split messages by `&` or the word `and` with ampersand normalization
(src lines 76-86): normalize, regex-split, strip each piece, drop empties. -/
def split_messages (raw : String) : List String :=
  let cs := normalizeAmp raw.data
  ((splitScanF (cs.length + 1) none [] cs).map (fun p => pyStrip p)).filterMap
    (fun p => if p = [] then none else some ⟨p⟩)

example : split_messages "a & b and c" = ["a", "b", "c"] := by decide
example : split_messages "" = [] := by decide
example : split_messages "   " = [] := by decide
example : split_messages "a ﹠ b" = ["a", "b"] := by decide
example : split_messages "sand dunes" = ["sand dunes"] := by decide
example : split_messages "x AND y" = ["x", "y"] := by decide

/-! ### Global state, events and replies

The Python global `STATE` dict (src lines 40-60) becomes a record.  The
`task` handle is modelled by whether a task currently exists; `started_at`
holds the abstract clock value passed to the engine at start. -/

/-- Values of `STATE["step"]` other than `None`. -/
inductive Step
  | session | mode | gc_pick | payload | count
  deriving DecidableEq, Repr

/-- The global `STATE` record (src lines 40-60). -/
structure BotState where
  logged_in : Bool
  session_label : Option String
  step : Option Step
  mode : Option String
  targets : List String
  messages : List String
  send_count : Nat
  running : Bool
  sent : Nat
  started_at : Option Nat
  task : Bool
  mock_groups : List String
  deriving DecidableEq, Repr

/-- The initial value of `STATE` (src lines 40-60). -/
def STATE : BotState :=
  { logged_in := false, session_label := none, step := none, mode := none,
    targets := [], messages := [], send_count := 0, running := false,
    sent := 0, started_at := none, task := false, mock_groups := [] }

/-- An inbound message: its text body (if any) and, if a document is
attached, the decoded contents of that document. -/
structure Msg where
  text : Option String
  document : Option String
  deriving DecidableEq, Repr

/-- The distinct replies the handlers can send.  Reply bodies are cosmetic;
only which reply is sent is modelled. -/
inductive Reply
  | demo_online | logged_in_demo | login_first | send_engine_setup
  | group_list | invalid_selection | message_input | no_messages_found
  | send_count_prompt | engine_live | engine_halted | dashboard | command_center
  deriving DecidableEq, Repr

/-- `OWNER_TG_ID` (src line 35). -/
def OWNER_TG_ID : Nat := 7510461579

/-- `is_owner` (src lines 65-66). -/
def is_owner (uid : Nat) : Bool :=
  uid = OWNER_TG_ID

/-- `read_messages` (src lines 88-100), success path: if a document is
attached its decoded contents is split, otherwise the text body (or `""`). -/
def read_messages (m : Msg) : List String :=
  match m.document with
  | some raw => split_messages raw
  | none => split_messages (m.text.getD "")

/-- Temp-file lifecycle of the document branch of `read_messages`
(src lines 92-99).  The argument is the outcome of
`open(tmp).read()`: `some raw` when reading succeeds, `none` when it
raises.  The result pairs the value returned (if any) with whether
`os.remove(tmp)` executed; in the source `os.remove` follows the `with`
block with no `try/finally`, so an exception propagates before it runs. -/
def read_doc_file (readOutcome : Option String) : Option (List String) × Bool :=
  match readOutcome with
  | some raw => (some (split_messages raw), true)
  | none => (none, false)

/-- `build_mock_groups` (src lines 105-120): the fixed demo catalogue. -/
def build_mock_groups : List String :=
  ["AAKASH KUTIYA〘BETICHOD〙⚚ 💢",
   "Cudai Lounge 🔥",
   "Market Signals 📈",
   "Crypto Talk 💎",
   "Gaming Squad 🎮",
   "Misfits Boxing 🥊",
   "Design Critique ✍️",
   "Music Drops 🎵",
   "Startup Founders 🚀",
   "Late-Night Chat 🌙"]

/-! ### Dry-run engine (src lines 125-152)

```python
STATE["started_at"] = now_ts(); STATE["sent"] = 0
msgs = STATE["messages"]; total = int(STATE["send_count"] or 0)
if not msgs: STATE["running"] = False; return
i = 0
while STATE["running"]:
    STATE["sent"] += 1
    i = (i + 1) % len(msgs)
    if total > 0 and STATE["sent"] >= total:
        STATE["running"] = False
        break
    await asyncio.sleep(0)
```

The loop body becomes a step function on the engine-local view
(`sent`, cursor `i`, `running`); iterating it `k` times models `k` trips
through the loop with no external interference. -/

/-- The engine-visible mutable cells: the sent counter, the cursor `i`, and
the running flag. -/
structure EngineSt where
  sent : Nat
  i : Nat
  running : Bool
  deriving DecidableEq, Repr

/-- Initialization of `dry_run_engine` before the loop, at clock value `t`:
set `started_at`, zero `sent`, and clear `running` when the pool is empty. -/
def dry_run_init (t : Nat) (st : BotState) : BotState :=
  let st' := { st with started_at := some t, sent := 0 }
  if st'.messages = [] then { st' with running := false } else st'

/-- One trip through the engine's `while` loop: if running, increment
`sent`, advance the cursor modulo the pool size, and clear `running` when a
positive `total` has been reached; if not running, nothing happens. -/
def engine_step (total msgsLen : Nat) (e : EngineSt) : EngineSt :=
  if e.running then
    let sent := e.sent + 1
    let i := (e.i + 1) % msgsLen
    if 0 < total ∧ total ≤ sent then ⟨sent, i, false⟩
    else ⟨sent, i, true⟩
  else e

/-- `k` undisturbed trips through the engine loop. -/
def engine_iter (total msgsLen : Nat) : Nat → EngineSt → EngineSt
  | 0, e => e
  | k + 1, e => engine_iter total msgsLen k (engine_step total msgsLen e)

/-! ### Command handlers (src lines 157-230)

Each handler takes the sender's id and the current state and returns the
new state together with the reply it sends (`none` when it is silent). -/

/-- `start_cmd` (src lines 157-172): owner only; set `logged_in := False`,
`session_label := None`, `step := "session"`; greet. -/
def start_cmd (uid : Nat) (st : BotState) : BotState × Option Reply :=
  if is_owner uid then
    ({ st with logged_in := false, session_label := none, step := some .session },
     some .demo_online)
  else (st, none)

/-- `attack_cmd` (src lines 174-186): owner only; demand login, else set
`step := "mode"` and prompt for the destination. -/
def attack_cmd (uid : Nat) (st : BotState) : BotState × Option Reply :=
  if is_owner uid then
    if !st.logged_in then (st, some .login_first)
    else ({ st with step := some Step.mode }, some .send_engine_setup)
  else (st, none)

/-- `stop_cmd` (src lines 188-200): owner only; clear `running`, cancel and
drop the task handle if present. -/
def stop_cmd (uid : Nat) (st : BotState) : BotState × Option Reply :=
  if is_owner uid then
    ({ st with running := false, task := false }, some .engine_halted)
  else (st, none)

/-- `status_cmd` (src lines 202-216): owner only; render a snapshot, no
state change. -/
def status_cmd (uid : Nat) (st : BotState) : BotState × Option Reply :=
  if is_owner uid then (st, some .dashboard) else (st, none)

/-- `help_cmd` (src lines 218-230): owner only; render the command list, no
state change. -/
def help_cmd (uid : Nat) (st : BotState) : BotState × Option Reply :=
  if is_owner uid then (st, some .command_center) else (st, none)

/-! ### Text router (src lines 235-320)

The Python function is a sequence of `if step == ... :` blocks, each ending
in `return`; since `step` holds a single value, this is a case split on
`step` with the block's extra conditions nested inside.  A message matching
no block falls off the end: no reply, no state change. -/

/-- `text_router` (src lines 235-320). -/
def text_router (uid : Nat) (m : Msg) (st : BotState) : BotState × Option Reply :=
  if is_owner uid then
    let text := pyStripStr (m.text.getD "")
    match st.step with
    | some .session =>
      ({ st with logged_in := true,
                 session_label := some (if text = "" then "demo-session" else text),
                 step := none },
       some .logged_in_demo)
    | some Step.mode =>
      if pyLower text = "gc" then
        ({ st with mode := some "GC", mock_groups := build_mock_groups,
                   step := some .gc_pick },
         some .group_list)
      else (st, none)
    | some .gc_pick =>
      if pyIsDigit text then
        let idx : Int := (strToNat text : Int) - 1
        if idx < 0 ∨ (st.mock_groups.length : Int) ≤ idx then
          (st, some .invalid_selection)
        else
          ({ st with targets := [st.mock_groups.getD idx.toNat ""],
                     step := some .payload },
           some .message_input)
      else (st, none)
    | some .payload =>
      let msgs := read_messages m
      if msgs = [] then (st, some .no_messages_found)
      else ({ st with messages := msgs, step := some .count },
            some .send_count_prompt)
    | some .count =>
      if pyIsDigit text then
        ({ st with send_count := strToNat text, running := true, step := none,
                   task := true },
         some .engine_live)
      else (st, none)
    | none => (st, none)
  else (st, none)

/-! ### Concrete states used by witnesses and counterexamples -/

/-- A logged-in state waiting at the mode step. -/
def stAtMode : BotState :=
  { STATE with logged_in := true, step := some Step.mode }

/-- A logged-in state waiting at the target-selection step, with the demo
catalogue cached. -/
def stAtPick : BotState :=
  { STATE with logged_in := true, step := some Step.gc_pick,
               mode := some "GC", mock_groups := build_mock_groups }

/-- A logged-in state waiting at the payload step. -/
def stAtPayload : BotState :=
  { STATE with logged_in := true, step := some Step.payload,
               mode := some "GC", mock_groups := build_mock_groups,
               targets := ["Cudai Lounge 🔥"] }

/-- A logged-in state waiting at the count step. -/
def stAtCount : BotState :=
  { STATE with logged_in := true, step := some Step.count,
               mode := some "GC", mock_groups := build_mock_groups,
               targets := ["Cudai Lounge 🔥"], messages := ["hi", "yo"] }

/-- A mid-flight state with non-initial values in every wizard field. -/
def exSt4 : BotState :=
  { STATE with logged_in := true, session_label := some "lbl",
               mode := some "GC", targets := ["Crypto Talk 💎"],
               messages := ["hi"], send_count := 7, running := true,
               sent := 5, task := true, mock_groups := build_mock_groups }

/-! ### Helper lemmas about stripping -/

theorem pyStrip_eq_rdropWhile (l : List Char) :
    pyStrip l = List.rdropWhile pyIsSpace (l.dropWhile pyIsSpace) := rfl

theorem dropWhile_rdropWhile_dropWhile (l : List Char) :
    List.dropWhile pyIsSpace (List.rdropWhile pyIsSpace (l.dropWhile pyIsSpace)) =
      List.rdropWhile pyIsSpace (l.dropWhile pyIsSpace) := by
  rw [List.dropWhile_eq_self_iff]
  intro hl
  have hpre := List.rdropWhile_prefix pyIsSpace (l.dropWhile pyIsSpace)
  have hlen : 0 < (l.dropWhile pyIsSpace).length := lt_of_lt_of_le hl hpre.length_le
  have h0 := List.dropWhile_get_zero_not pyIsSpace l hlen
  simpa [List.get_eq_getElem, hpre.getElem hl] using h0

theorem pyStrip_idem (l : List Char) : pyStrip (pyStrip l) = pyStrip l := by
  rw [pyStrip_eq_rdropWhile, pyStrip_eq_rdropWhile, dropWhile_rdropWhile_dropWhile,
    List.rdropWhile_idempotent]

theorem normalizeAmp_idem (l : List Char) :
    normalizeAmp (normalizeAmp l) = normalizeAmp l := by
  simp only [normalizeAmp, List.map_map]
  refine List.map_congr_left fun c _ => ?_
  by_cases h : c = '﹠' ∨ c = '＆' ∨ c = '⅋' <;> simp [h]

/-! ### Engine loop lemmas -/

theorem engine_iter_succ (total m k : Nat) (e : EngineSt) :
    engine_iter total m (k + 1) e = engine_step total m (engine_iter total m k e) := by
  induction k generalizing e with
  | zero => rfl
  | succ k ih =>
    calc engine_iter total m (k + 2) e
        = engine_iter total m (k + 1) (engine_step total m e) := rfl
      _ = engine_step total m (engine_iter total m k (engine_step total m e)) := ih _
      _ = engine_step total m (engine_iter total m (k + 1) e) := rfl

theorem engine_iter_running (total m k : Nat) (h : total = 0 ∨ k < total) :
    engine_iter total m k ⟨0, 0, true⟩ = ⟨k, k % m, true⟩ := by
  induction k with
  | zero => rfl
  | succ k ih =>
    have h' : total = 0 ∨ k < total := by omega
    have hc : ¬(0 < total ∧ total ≤ k + 1) := by omega
    rw [engine_iter_succ, ih h']
    simp [engine_step, hc, Nat.mod_add_mod]

theorem engine_iter_done (total m : Nat) (h : 0 < total) :
    engine_iter total m total ⟨0, 0, true⟩ = ⟨total, total % m, false⟩ := by
  obtain ⟨t, rfl⟩ : ∃ t, total = t + 1 := ⟨total - 1, by omega⟩
  rw [engine_iter_succ, engine_iter_running (t + 1) m t (by omega)]
  have hc : 0 < t + 1 ∧ t + 1 ≤ t + 1 := by omega
  simp [engine_step, hc, Nat.mod_add_mod]

/-- C1: with a non-empty message pool, a positive `send_count` makes the
undisturbed loop terminate after exactly `send_count` iterations with `sent`
equal to `send_count` and `running` false (`sent` equal to the iteration
count while still running); with `send_count = 0` the loop never terminates
on its own, incrementing `sent` by one each iteration; once `running` is
cleared externally an iteration changes nothing; and the engine starts by
zeroing `sent` and stamping `started_at`. -/
theorem C1_dry_run_counts (total m : Nat) (hm : 0 < m) :
    (0 < total →
      engine_iter total m total ⟨0, 0, true⟩ = ⟨total, total % m, false⟩ ∧
      ∀ k < total, engine_iter total m k ⟨0, 0, true⟩ = ⟨k, k % m, true⟩) ∧
    (total = 0 → ∀ k, engine_iter total m k ⟨0, 0, true⟩ = ⟨k, k % m, true⟩) ∧
    (∀ e : EngineSt, e.running = false → engine_step total m e = e) ∧
    (∀ (st : BotState) (t : Nat), st.messages ≠ [] →
      dry_run_init t st = { st with started_at := some t, sent := 0 }) := by
  refine ⟨fun ht => ⟨engine_iter_done total m ht,
      fun k hk => engine_iter_running total m k (Or.inr hk)⟩,
    fun ht k => engine_iter_running total m k (Or.inl ht), fun e he => ?_, fun st t h => ?_⟩
  · simp [engine_step, he]
  · simp [dry_run_init, h]

theorem C1_witness :
    engine_iter 2 1 2 ⟨0, 0, true⟩ = ⟨2, 0, false⟩ ∧
    engine_iter 0 3 5 ⟨0, 0, true⟩ = ⟨5, 2, true⟩ := by
  constructor
  · have := ((C1_dry_run_counts 2 1 (by decide)).1 (by decide)).1
    simpa using this
  · have := (C1_dry_run_counts 0 3 (by decide)).2.1 rfl 5
    simpa using this

/-- C2: the payload splitter is invariant under ampersand normalization,
every piece it produces is non-empty and already stripped, the examples
`"a & b and c"`, `""` and `"   "` split as stated, and an input that splits
to zero messages is rejected at the payload step with an error reply and no
state change. -/
theorem C2_split_messages :
    (∀ raw : String, split_messages ⟨normalizeAmp raw.data⟩ = split_messages raw) ∧
    (∀ raw : String, ∀ m ∈ split_messages raw, m ≠ "" ∧ pyStripStr m = m) ∧
    split_messages "a & b and c" = ["a", "b", "c"] ∧
    split_messages "" = [] ∧
    split_messages "   " = [] ∧
    (∀ (st : BotState) (m : Msg), st.step = some Step.payload → read_messages m = [] →
      text_router OWNER_TG_ID m st = (st, some Reply.no_messages_found)) := by
  refine ⟨fun raw => ?_, fun raw m hm => ?_, by decide, by decide, by decide,
    fun st m hstep hmsgs => ?_⟩
  · unfold split_messages
    rw [show (String.mk (normalizeAmp raw.data)).data = normalizeAmp raw.data from rfl,
      normalizeAmp_idem]
  · unfold split_messages at hm
    rw [List.mem_filterMap] at hm
    obtain ⟨p, hp, hsome⟩ := hm
    rw [List.mem_map] at hp
    obtain ⟨q, hq, rfl⟩ := hp
    by_cases h : pyStrip q = []
    · simp [h] at hsome
    · rw [if_neg h] at hsome
      obtain rfl : String.mk (pyStrip q) = m := by simpa using hsome
      refine ⟨fun hc => h ?_, ?_⟩
      · simpa using congrArg String.data hc
      · show pyStripStr ⟨pyStrip q⟩ = ⟨pyStrip q⟩
        unfold pyStripStr
        rw [show (String.mk (pyStrip q)).data = pyStrip q from rfl, pyStrip_idem]
  · simp [text_router, is_owner, hstep, hmsgs]

theorem C2_witness :
    ("a" ≠ "" ∧ pyStripStr "a" = "a") ∧
    text_router OWNER_TG_ID ⟨some "  ", none⟩ stAtPayload =
      (stAtPayload, some Reply.no_messages_found) :=
  ⟨C2_split_messages.2.1 "a & b" "a" (by decide),
   C2_split_messages.2.2.2.2.2 stAtPayload ⟨some "  ", none⟩ (by decide) (by decide)⟩

/-- C3: every handler, for every state and message, ignores a sender whose
id differs from `OWNER_TG_ID`: no reply is produced and the state returned
is exactly the state received. -/
theorem C3_auth_gate (uid : Nat) (h : uid ≠ OWNER_TG_ID) (st : BotState) (m : Msg) :
    start_cmd uid st = (st, none) ∧ attack_cmd uid st = (st, none) ∧
    stop_cmd uid st = (st, none) ∧ status_cmd uid st = (st, none) ∧
    help_cmd uid st = (st, none) ∧ text_router uid m st = (st, none) := by
  have ho : is_owner uid = false := by simp [is_owner, h]
  simp [start_cmd, attack_cmd, stop_cmd, status_cmd, help_cmd, text_router, ho]

theorem C3_witness :
    start_cmd 0 exSt4 = (exSt4, none) ∧ attack_cmd 0 exSt4 = (exSt4, none) ∧
    stop_cmd 0 exSt4 = (exSt4, none) ∧ status_cmd 0 exSt4 = (exSt4, none) ∧
    help_cmd 0 exSt4 = (exSt4, none) ∧
    text_router 0 ⟨some "hello", none⟩ exSt4 = (exSt4, none) :=
  C3_auth_gate 0 (by decide) exSt4 ⟨some "hello", none⟩

/-- C4 as stated is false: `/start` from a mid-flight state sets `step` to
the session step but leaves `mode`, `targets`, `messages`, `send_count`,
`running` and `sent` at their non-initial values. -/
theorem C4_counterexample :
    (start_cmd OWNER_TG_ID exSt4).1.step = some Step.session ∧
    (start_cmd OWNER_TG_ID exSt4).1.mode = some "GC" ∧
    (start_cmd OWNER_TG_ID exSt4).1.targets = ["Crypto Talk 💎"] ∧
    (start_cmd OWNER_TG_ID exSt4).1.messages = ["hi"] ∧
    (start_cmd OWNER_TG_ID exSt4).1.send_count = 7 ∧
    (start_cmd OWNER_TG_ID exSt4).1.running = true ∧
    (start_cmd OWNER_TG_ID exSt4).1.sent = 5 ∧
    STATE.mode = none ∧ STATE.targets = [] ∧ STATE.messages = [] ∧
    STATE.send_count = 0 ∧ STATE.running = false ∧ STATE.sent = 0 := by
  decide

/-- C4 amended: the owner's `/start` resets exactly the login fields —
`logged_in` to false and `session_label` to none — and sets `step` to the
session step; every other field keeps its prior value. -/
theorem C4_start_resets_login_fields (st : BotState) :
    start_cmd OWNER_TG_ID st =
      ({ st with logged_in := false, session_label := none,
                 step := some Step.session }, some Reply.demo_online) := by
  simp [start_cmd, is_owner]

/-- C5 as stated is false: at the mode step the owner's text `"xyz"` is
malformed, yet the router produces no reply at all (it does leave the state
unchanged). -/
theorem C5_counterexample :
    text_router OWNER_TG_ID ⟨some "xyz", none⟩ stAtMode = (stAtMode, none) := by
  decide

/-- C5 amended: at every wizard step, owner input that is unrecognized or
malformed for that step leaves the whole state unchanged, but only the
out-of-range selection at the target step and the empty payload produce an
error reply; non-`GC` text at the mode step and non-numeric text at the
target-index and count steps are ignored with no reply. -/
theorem C5_invalid_input_no_state_change (st : BotState) (m : Msg) :
    (st.step = some Step.mode → pyLower (pyStripStr (m.text.getD "")) ≠ "gc" →
      text_router OWNER_TG_ID m st = (st, none)) ∧
    (st.step = some Step.gc_pick → pyIsDigit (pyStripStr (m.text.getD "")) = false →
      text_router OWNER_TG_ID m st = (st, none)) ∧
    (st.step = some Step.gc_pick → pyIsDigit (pyStripStr (m.text.getD "")) = true →
      ((strToNat (pyStripStr (m.text.getD "")) : Int) - 1 < 0 ∨
        (st.mock_groups.length : Int) ≤ (strToNat (pyStripStr (m.text.getD "")) : Int) - 1) →
      text_router OWNER_TG_ID m st = (st, some Reply.invalid_selection)) ∧
    (st.step = some Step.payload → read_messages m = [] →
      text_router OWNER_TG_ID m st = (st, some Reply.no_messages_found)) ∧
    (st.step = some Step.count → pyIsDigit (pyStripStr (m.text.getD "")) = false →
      text_router OWNER_TG_ID m st = (st, none)) := by
  refine ⟨fun hs hc => ?_, fun hs hc => ?_, fun hs hd hc => ?_, fun hs hc => ?_,
    fun hs hc => ?_⟩
  · simp [text_router, is_owner, hs, hc]
  · simp [text_router, is_owner, hs, hc]
  · have hc' : strToNat (pyStripStr (m.text.getD "")) = 0 ∨
        (st.mock_groups.length : Int) ≤ (strToNat (pyStripStr (m.text.getD "")) : Int) - 1 := by
      rcases hc with h | h
      · left; omega
      · right; exact h
    simp [text_router, is_owner, hs, hd, hc']
  · simp [text_router, is_owner, hs, hc]
  · simp [text_router, is_owner, hs, hc]

theorem C5_witness :
    text_router OWNER_TG_ID ⟨some "XY", none⟩ stAtMode = (stAtMode, none) ∧
    text_router OWNER_TG_ID ⟨some "one", none⟩ stAtPick = (stAtPick, none) ∧
    text_router OWNER_TG_ID ⟨some "0", none⟩ stAtPick =
      (stAtPick, some Reply.invalid_selection) ∧
    text_router OWNER_TG_ID ⟨some " ", none⟩ stAtPayload =
      (stAtPayload, some Reply.no_messages_found) ∧
    text_router OWNER_TG_ID ⟨some "ten", none⟩ stAtCount = (stAtCount, none) :=
  ⟨(C5_invalid_input_no_state_change stAtMode ⟨some "XY", none⟩).1 (by decide) (by decide),
   (C5_invalid_input_no_state_change stAtPick ⟨some "one", none⟩).2.1 (by decide) (by decide),
   (C5_invalid_input_no_state_change stAtPick ⟨some "0", none⟩).2.2.1 (by decide) (by decide)
     (by decide),
   (C5_invalid_input_no_state_change stAtPayload ⟨some " ", none⟩).2.2.2.1 (by decide)
     (by decide),
   (C5_invalid_input_no_state_change stAtCount ⟨some "ten", none⟩).2.2.2.2 (by decide)
     (by decide)⟩

/-- C6 as stated is false: from the payload step the owner's `/attack`
moves `step` backwards to the intermediate mode step (neither an advance
along the fixed order nor a reset to none). -/
theorem C6_counterexample :
    stAtPayload.step = some Step.payload ∧
    (attack_cmd OWNER_TG_ID stAtPayload).1.step = some Step.mode := by
  decide

/-- C6 amended: the message router only ever advances `step` one step along
the fixed order (session resolving to none, mode → gc_pick → payload →
count, count resolving to none) or leaves it unchanged; `/stop`, `/status`
and `/help` never change `step`; but `/start` may set `step` back to the
session step from any state, and `/attack` back to the mode step from any
logged-in state. -/
theorem C6_step_transitions (uid : Nat) (m : Msg) (st : BotState) :
    ((text_router uid m st).1.step = st.step ∨
     (st.step = some Step.session ∧ (text_router uid m st).1.step = none) ∨
     (st.step = some Step.mode ∧ (text_router uid m st).1.step = some Step.gc_pick) ∨
     (st.step = some Step.gc_pick ∧ (text_router uid m st).1.step = some Step.payload) ∨
     (st.step = some Step.payload ∧ (text_router uid m st).1.step = some Step.count) ∨
     (st.step = some Step.count ∧ (text_router uid m st).1.step = none)) ∧
    ((start_cmd uid st).1.step = some Step.session ∨ (start_cmd uid st).1.step = st.step) ∧
    ((attack_cmd uid st).1.step = some Step.mode ∨ (attack_cmd uid st).1.step = st.step) ∧
    (stop_cmd uid st).1.step = st.step ∧
    (status_cmd uid st).1.step = st.step ∧
    (help_cmd uid st).1.step = st.step := by
  refine ⟨?_, ?_, ?_, ?_, ?_, ?_⟩
  · cases h : is_owner uid
    · simp [text_router, h]
    · rcases hs : st.step with _ | s
      · simp [text_router, h, hs]
      · cases s <;> simp [text_router, h, hs] <;> split_ifs <;> simp [hs]
  · cases h : is_owner uid <;> simp [start_cmd, h]
  · cases h : is_owner uid <;> simp [attack_cmd, h]
    split_ifs <;> simp
  · cases h : is_owner uid <;> simp [stop_cmd, h]
  · cases h : is_owner uid <;> simp [status_cmd, h]
  · cases h : is_owner uid <;> simp [help_cmd, h]

/-- C7: at the target-selection step, any digit input whose value exceeds
the catalogue size draws the invalid-selection reply and returns the state
exactly as received. -/
theorem C7_out_of_range_selection (st : BotState) (s : String)
    (hstep : st.step = some Step.gc_pick)
    (hdig : pyIsDigit (pyStripStr s) = true)
    (hgt : st.mock_groups.length < strToNat (pyStripStr s)) :
    text_router OWNER_TG_ID ⟨some s, none⟩ st = (st, some Reply.invalid_selection) := by
  have hc' : strToNat (pyStripStr s) = 0 ∨
      (st.mock_groups.length : Int) ≤ (strToNat (pyStripStr s) : Int) - 1 := by
    right; omega
  simp [text_router, is_owner, hstep, hdig, hc']

theorem C7_witness :
    text_router OWNER_TG_ID ⟨some "11", none⟩ stAtPick =
      (stAtPick, some Reply.invalid_selection) :=
  C7_out_of_range_selection stAtPick "11" (by decide) (by decide) (by decide)

/-- C8: at the payload step an event carrying a plain-text file with
contents `s` is processed exactly like a plain-text event whose body is
`s`; `read_messages` yields the same pool either way, in particular for
`"x & y"`. -/
theorem C8_file_text_equivalence :
    (∀ (st : BotState) (s : String) (t : Option String), st.step = some Step.payload →
      text_router OWNER_TG_ID ⟨t, some s⟩ st = text_router OWNER_TG_ID ⟨some s, none⟩ st) ∧
    (∀ (s : String) (t : Option String),
      read_messages ⟨t, some s⟩ = read_messages ⟨some s, none⟩) ∧
    read_messages ⟨some "x & y", none⟩ = ["x", "y"] ∧
    read_messages ⟨none, some "x & y"⟩ = ["x", "y"] := by
  refine ⟨fun st s t hstep => ?_, fun s t => ?_, by decide, by decide⟩
  · simp [text_router, is_owner, hstep, read_messages]
  · simp [read_messages]

theorem C8_witness :
    text_router OWNER_TG_ID ⟨none, some "x & y"⟩ stAtPayload =
      text_router OWNER_TG_ID ⟨some "x & y", none⟩ stAtPayload :=
  C8_file_text_equivalence.1 stAtPayload "x & y" none (by decide)

/-- C9 as stated is false: when reading the staged file raises, `os.remove`
is never reached, so the temporary file survives the failure path (it is
removed on the success path). -/
theorem C9_counterexample :
    (read_doc_file (some "x & y")).2 = true ∧ (read_doc_file none).2 = false := by
  decide

/-- C9 amended: the staged temporary file is removed exactly when the read
succeeds; on a failing read the exception propagates before `os.remove`
and the file is not deleted. -/
theorem C9_cleanup_iff_success (d : Option String) :
    (read_doc_file d).2 = d.isSome := by
  cases d <;> rfl

/-- C10: group numbering is 1-based: the digit input `"0"` maps to internal
index `-1` and is rejected as an invalid selection with the state returned
unchanged, while any digit input from 1 up to the catalogue size selects
the corresponding (1-based) entry and advances to the payload step. -/
theorem C10_one_based_selection :
    (∀ st : BotState, st.step = some Step.gc_pick →
      text_router OWNER_TG_ID ⟨some "0", none⟩ st = (st, some Reply.invalid_selection)) ∧
    (strToNat "0" : Int) - 1 = -1 ∧
    (∀ (st : BotState) (s : String), st.step = some Step.gc_pick →
      pyIsDigit (pyStripStr s) = true → 1 ≤ strToNat (pyStripStr s) →
      strToNat (pyStripStr s) ≤ st.mock_groups.length →
      text_router OWNER_TG_ID ⟨some s, none⟩ st =
        ({ st with targets := [st.mock_groups.getD (strToNat (pyStripStr s) - 1) ""],
                   step := some Step.payload }, some Reply.message_input)) := by
  refine ⟨fun st hstep => ?_, by decide, fun st s hstep hdig h1 h2 => ?_⟩
  · have hd0 : pyIsDigit (pyStripStr "0") = true := by decide
    have hc' : strToNat (pyStripStr "0") = 0 ∨
        (st.mock_groups.length : Int) ≤ (strToNat (pyStripStr "0") : Int) - 1 :=
      Or.inl (by decide)
    simp [text_router, is_owner, hstep, hd0, hc']
  · have hc' : ¬(strToNat (pyStripStr s) = 0 ∨
        (st.mock_groups.length : Int) ≤ (strToNat (pyStripStr s) : Int) - 1) := by
      omega
    have hidx : ((strToNat (pyStripStr s) : Int) - 1).toNat = strToNat (pyStripStr s) - 1 := by
      omega
    simp [text_router, is_owner, hstep, hdig, hc', hidx, List.getD]

theorem C10_witness :
    text_router OWNER_TG_ID ⟨some "0", none⟩ stAtPick =
      (stAtPick, some Reply.invalid_selection) ∧
    text_router OWNER_TG_ID ⟨some "3", none⟩ stAtPick =
      ({ stAtPick with targets := ["Market Signals 📈"], step := some Step.payload },
       some Reply.message_input) := by
  constructor
  · exact C10_one_based_selection.1 stAtPick (by decide)
  · have h3 := C10_one_based_selection.2.2 stAtPick "3" (by decide) (by decide) (by decide)
      (by decide)
    rw [h3]
    decide
